import Mathlib

/-!
Shallow embedding of the QFieldCloud subscription subsystem
(file `docker-app/qfieldcloud/subscription/models.py`) and of the choice
fields of `docker-app/qfieldcloud/core/serializers.py`.

Datetimes are modelled as integers, the database as explicit lists of rows
carried through every operation, and raised Python exceptions as an error
type threaded through `Except`.  A transaction is one Lean function from the
incoming database value to an `Except` result: an error result leaves the
caller with the unmodified database, which renders the all-or-nothing
behaviour of `transaction.atomic`.
-/

namespace QFieldCloud

/-- Kinds of Python exceptions raised by the modelled code paths:
`Model.DoesNotExist` and `MultipleObjectsReturned` from `QuerySet.get`,
`AttributeError` from reading a missing attribute, `AssertionError` from a
failed `assert` statement, and the framework `ValidationError` raised by
`Plan.save`. -/
inductive PyErr where
  | doesNotExist
  | multipleObjectsReturned
  | attributeError
  | assertionError
  | validationError
deriving DecidableEq, Repr

/-- The user-category choices of `qfieldcloud.core.models.User.Type` stored in
`Plan.user_type` (a positive small integer column).  Modelled from the spec:
`core/models.py` is not among the provided sources and the spec names exactly
the two categories person and organization. -/
def UserType.PERSON : Nat := 1

/-- The organization user category, see `UserType.PERSON`. -/
def UserType.ORGANIZATION : Nat := 2

/-- Account row of `qfieldcloud.core.models.UserAccount`.  Modelled from the
spec: `core/models.py` is not among the provided sources; only the data read
by the subscription code is included, with `account.user.type` flattened to
`user_type` and the `storage_quota_used_mb` figure (in megabytes) kept as an
integer. -/
structure UserAccount where
  pk : Nat
  user_type : Nat
  storage_quota_used_mb : Int
deriving DecidableEq, Repr

/-- Row of `subscription.Plan` (models.py lines 15-137).  Columns no modelled
operation reads (ordering, quotas other than `storage_mb`, capability flags
other than `is_premium`, trial and collaborator limits) are omitted. -/
structure Plan where
  id : Nat
  code : String
  user_type : Nat
  display_name : String
  storage_mb : Nat
  is_public : Bool
  is_default : Bool
  is_premium : Bool
deriving DecidableEq, Repr

/-- `Subscription.Status` text choices (models.py lines 222-249). -/
inductive Status where
  | inactive_draft
  | inactive_draft_expired
  | inactive_requested_create
  | inactive_awaits_payment
  | active_paid
  | active_past_due
  | inactive_cancelled
deriving DecidableEq, Repr

/-- The database value of each status choice, exactly as in the source
(including the mixed-case value of `INACTIVE_REQUESTED_CREATE`). -/
def Status.value : Status → String
  | .inactive_draft => "inactive_draft"
  | .inactive_draft_expired => "inactive_draft_expired"
  | .inactive_requested_create => "inactive Requested_create"
  | .inactive_awaits_payment => "inactive_awaits_payment"
  | .active_paid => "active_paid"
  | .active_past_due => "active_past_due"
  | .inactive_cancelled => "inactive_cancelled"

/-- Row of `subscription.Subscription` (models.py lines 218-288): foreign keys
are stored as primary keys, `active_since` and `active_until` are nullable
datetime columns.  Audit columns (`uuid`, `created_by`, `created_at`,
`updated_at`, `requested_cancel_at`) are omitted. -/
structure Subscription where
  id : Nat
  plan : Nat
  account : Nat
  storage_quantity : Nat
  status : Status
  active_since : Option Int
  active_until : Option Int
deriving DecidableEq, Repr

/-- Row of `subscription.ExtraPackageType` (models.py lines 140-167). -/
structure ExtraPackageType where
  id : Nat
  code : String
  type : String
  is_public : Bool
  min_quantity : Nat
  max_quantity : Nat
  unit_amount : Nat
deriving DecidableEq, Repr

/-- The single `ExtraPackageType.Type` text choice (models.py line 142). -/
def ExtraPackageTypeSTORAGE : String := "storage"

/-- Row of `subscription.ExtraPackage` (models.py lines 181-199):
`subscription` and `type` are foreign keys stored as primary keys,
`active_since` is non-nullable, `active_until` nullable. -/
structure ExtraPackage where
  id : Nat
  subscription : Nat
  type : Nat
  quantity : Nat
  active_since : Int
  active_until : Option Int
deriving DecidableEq, Repr

/-- The relational store: one list of rows per table, plus the next value of
each primary-key sequence used by `objects.create`. -/
structure DB where
  plans : List Plan
  subscriptions : List Subscription
  packages : List ExtraPackage
  nextPlanId : Nat
  nextSubId : Nat
  nextPkgId : Nat
deriving DecidableEq, Repr

/-- Membership test of `SubscriptionQuerySet.active` (models.py lines
207-215): `active_since <= now AND (active_until IS NULL OR active_until >=
now)`.  A NULL `active_since` fails the SQL comparison, so such a row is
never selected. -/
def subscriptionActive (now : Int) (s : Subscription) : Bool :=
  (match s.active_since with
   | some a => decide (a ≤ now)
   | none => false)
  && (match s.active_until with
      | none => true
      | some u => decide (now ≤ u))

/-- Membership test of `ExtraPackageQuerySet.active` (models.py lines
170-178), the same condition as `subscriptionActive` over a non-nullable
`active_since`. -/
def extraPackageActive (now : Int) (p : ExtraPackage) : Bool :=
  decide (p.active_since ≤ now)
  && (match p.active_until with
      | none => true
      | some u => decide (now ≤ u))

/-- Django `QuerySet.get()` on the rows matched by a filter: raises
`DoesNotExist` on no row, returns the row if it is unique, raises
`MultipleObjectsReturned` otherwise. -/
def getSingle {α : Type} (rows : List α) : Except PyErr α :=
  match rows with
  | [] => .error .doesNotExist
  | [x] => .ok x
  | _ => .error .multipleObjectsReturned

/-- The rows of `cls.objects.active().filter(account_id=...)`, used both by
`Subscription.get_or_create_active_subscription` (with `.get`) and by
`Subscription.create_default_plan_subscription` (with a truthiness test). -/
def active_account_subscriptions (db : DB) (accountPk : Nat) (now : Int) :
    List Subscription :=
  db.subscriptions.filter (fun s => subscriptionActive now s && s.account == accountPk)

/-- `Subscription.min_storage_package_quantity` (models.py lines 314-319):
`math.ceil(max(used - included, 0) / 1000)` where `used` is
`self.account.storage_quota_used_mb` and `included` is
`self.plan.storage_mb`; true division followed by `math.ceil` is rendered as
the rational ceiling. -/
def Subscription.min_storage_package_quantity (account : UserAccount) (plan : Plan) : Int :=
  ⌈((max (account.storage_quota_used_mb - (plan.storage_mb : Int)) 0 : Int) : ℚ) / 1000⌉

/-- `Subscription.update_package_quantity` (models.py lines 321-356).  After
the premium assertion the source evaluates `self.subscription` while
building the keyword arguments of `ExtraPackage.objects.active()...get(...)`;
the `Subscription` model has no attribute named `subscription` (the reverse
accessor of `ExtraPackage.subscription` is called `packages`), so that read
raises `AttributeError`, which the surrounding `except
ExtraPackage.DoesNotExist` clause does not catch; the remainder of the body
(closing the old package, creating the new one with `subscription=self`) is
unreachable but translated below the poisoned step. -/
def Subscription.update_package_quantity (db : DB) (self : Subscription)
    (package_type : ExtraPackageType) (quantity : Nat) (now : Int) :
    Except PyErr (Option ExtraPackage × DB) := do
  let plan ← match db.plans.find? (fun q => q.id == self.plan) with
    | some plan => Except.ok plan
    | none => Except.error PyErr.doesNotExist
  if plan.is_premium = false then
    Except.error PyErr.assertionError
  else do
    let subscription_attr : Nat ← Except.error PyErr.attributeError
    let old_package ←
      match getSingle ((db.packages.filter (fun g => extraPackageActive now g)).filter
          (fun g => g.subscription == subscription_attr && g.type == package_type.id)) with
      | .ok g => Except.ok (some g)
      | .error .doesNotExist => Except.ok (none : Option ExtraPackage)
      | .error e => Except.error e
    let packages :=
      match old_package with
      | some old => db.packages.map (fun g =>
          if g.id == old.id then { g with active_until := some now } else g)
      | none => db.packages
    if quantity > 0 then
      let new_package : ExtraPackage :=
        { id := db.nextPkgId, subscription := self.id, type := package_type.id,
          quantity := quantity, active_since := now, active_until := none }
      Except.ok (some new_package,
        { db with packages := packages ++ [new_package], nextPkgId := db.nextPkgId + 1 })
    else
      Except.ok (none, { db with packages := packages })

/-- `Subscription.create_default_plan_subscription` (models.py lines 418-457).
When the account already has an active subscription the source raises
`Exception(f"There is already an active subscription {active_subscription.id}
...")`; `active_subscription` is a queryset, which has no attribute `id`, so
evaluating the message itself raises `AttributeError` — either way a hard
failure before anything is written. -/
def Subscription.create_default_plan_subscription (db : DB) (account : UserAccount)
    (active_since : Option Int) (now : Int) : Except PyErr (Subscription × DB) :=
  if active_account_subscriptions db account.pk now ≠ [] then
    .error .attributeError
  else
    let active_since := match active_since with | none => now | some v => v
    match getSingle (db.plans.filter (fun q =>
        q.user_type == account.user_type && q.is_default)) with
    | .error e => .error e
    | .ok plan =>
      let subscription : Subscription :=
        { id := db.nextSubId, plan := plan.id, account := account.pk,
          storage_quantity := 0, status := Status.active_paid,
          active_since := some active_since, active_until := none }
      .ok (subscription,
        { db with subscriptions := db.subscriptions ++ [subscription],
                  nextSubId := db.nextSubId + 1 })

/-- `Subscription.get_or_create_active_subscription` (models.py lines
358-373): `cls.objects.active().get(account_id=account.pk)`, falling back to
`create_default_plan_subscription` only on `DoesNotExist`; a
`MultipleObjectsReturned` from `.get` propagates to the caller. -/
def Subscription.get_or_create_active_subscription (db : DB) (account : UserAccount)
    (now : Int) : Except PyErr (Subscription × DB) :=
  match getSingle (active_account_subscriptions db account.pk now) with
  | .ok subscription => .ok (subscription, db)
  | .error .doesNotExist => Subscription.create_default_plan_subscription db account none now
  | .error e => .error e

/-- Effect of `Subscription.update_subscription` (models.py lines 375-416) on
one stored row: the target row (matched by primary key) receives the new
`status`, `active_since` and `active_until`; every other row of the same
account that `active()` selects at the time of the call is cancelled with
`active_until = active_since`; all remaining rows are untouched. -/
def update_subscription_row (subId : Nat) (accountPk : Nat) (status : Status)
    (active_since : Int) (active_until : Option Int) (now : Int)
    (s : Subscription) : Subscription :=
  if s.id == subId then
    { s with status := status, active_since := some active_since,
             active_until := active_until }
  else if subscriptionActive now s && s.account == accountPk then
    { s with status := Status.inactive_cancelled, active_until := some active_since }
  else s

/-- `Subscription.update_subscription` (models.py lines 375-416): refetches
the target row under `select_for_update`, cancels all other currently active
subscriptions of the same account (`status = INACTIVE_CANCELLED`,
`active_until = active_since`), then saves the target with the given status
and period.  The whole body runs inside one `transaction.atomic` block,
rendered here as a single state transition. -/
def Subscription.update_subscription (db : DB) (subId : Nat) (status : Status)
    (active_since : Int) (active_until : Option Int) (now : Int) :
    Except PyErr (Subscription × DB) :=
  match getSingle (db.subscriptions.filter (fun s => s.id == subId)) with
  | .error e => .error e
  | .ok target =>
    let subscriptions := db.subscriptions.map
      (update_subscription_row subId target.account status active_since active_until now)
    let newTarget : Subscription :=
      { target with status := status, active_since := some active_since,
                    active_until := active_until }
    .ok (newTarget, { db with subscriptions := subscriptions })

/-- Effect on one stored row of
`Plan.objects.filter(user_type=self.user_type).update(is_default=False)`. -/
def unsetDefaultRow (p : Plan) (q : Plan) : Plan :=
  if q.user_type == p.user_type then { q with is_default := false } else q

/-- Effect on one stored row of the UPDATE performed by `super().save()` when
the primary key already exists. -/
def upsertRow (p : Plan) (q : Plan) : Plan :=
  if q.id == p.id then p else q

/-- `Plan.save` (models.py lines 117-127): validates `user_type`, then inside
`transaction.atomic` unsets `is_default` on every plan of the same
`user_type` when the saved plan is default, and writes the row (an UPDATE
when the primary key already exists, an INSERT otherwise). -/
def Plan.save (db : DB) (p : Plan) : Except PyErr DB :=
  if p.user_type ∉ [UserType.PERSON, UserType.ORGANIZATION] then
    .error .validationError
  else
    let plans := if p.is_default then db.plans.map (unsetDefaultRow p) else db.plans
    let plans :=
      if plans.any (fun q => q.id == p.id) then plans.map (upsertRow p)
      else plans ++ [p]
    .ok { db with plans := plans }

/-- Django `Manager.create` for `Plan`: builds the row with the next primary
key and the given fields (all other columns at their declared defaults) and
runs the model `save`. -/
def Plan.create_plan (db : DB) (code display_name : String)
    (is_default is_public : Bool) (user_type : Nat) : Except PyErr (Plan × DB) :=
  let p : Plan :=
    { id := db.nextPlanId, code := code, user_type := user_type,
      display_name := display_name, storage_mb := 10, is_public := is_public,
      is_default := is_default, is_premium := false }
  match Plan.save { db with nextPlanId := db.nextPlanId + 1 } p with
  | .ok db1 => .ok (p, db1)
  | .error e => .error e

/-- `cls.objects.order_by("-is_default").first()` at the end of
`Plan.get_or_create_default`: a plan with `is_default` set comes first when
one exists. -/
def default_first (db : DB) : Option Plan :=
  (db.plans.filter (fun q => q.is_default) ++
    db.plans.filter (fun q => !q.is_default)).head?

/-- `Plan.get_or_create_default` (models.py lines 16-36): when the `Plan`
table is empty, creates the two autocreated default plans (person and
organization) inside one transaction, then returns the first plan ordered by
descending `is_default`. -/
def Plan.get_or_create_default (db : DB) : Except PyErr (Option Plan × DB) :=
  if db.plans.length == 0 then
    match Plan.create_plan db "default_user" "default user (autocreated)"
        true false UserType.PERSON with
    | .error e => .error e
    | .ok (_, db1) =>
      match Plan.create_plan db1 "default_org" "default organization (autocreated)"
          true false UserType.ORGANIZATION with
      | .error e => .error e
      | .ok (_, db2) => .ok (default_first db2, db2)
  else .ok (default_first db, db)

/-- The database state after one call of `Plan.get_or_create_default`.  The
error branch is unreachable: the two created plans both carry a valid
`user_type`, so `Plan.save` never rejects them. -/
def get_or_create_default_state (db : DB) : DB :=
  match Plan.get_or_create_default db with
  | .ok (_, db1) => db1
  | .error _ => db

/-- The error raised by the serializer choice fields, carrying the message
built by `"Invalid role. Acceptable values are {0}.".format(list(self._choices.values()))`. -/
structure ValidationError where
  detail : String
deriving DecidableEq, Repr

/-- Python `repr` of a list of strings, as produced by `"...{0}.".format(list(...))`. -/
def pyStrListRepr (labels : List String) : String :=
  "[" ++ String.intercalate ", " (labels.map (fun s => "\x27" ++ s ++ "\x27")) ++ "]"

/-- `RoleChoiceField.to_internal_value` (serializers.py lines 67-77): scans
`self._choices` (an insertion-ordered mapping of internal code to display
label, modelled as an association list) and returns the first code whose
label equals the supplied data; otherwise raises a `ValidationError` whose
message lists the acceptable display labels. -/
def RoleChoiceField.to_internal_value (choices : List (Nat × String))
    (data : String) : Except ValidationError Nat :=
  match choices.find? (fun c => c.2 == data) with
  | some c => .ok c.1
  | none => .error
      { detail := "Invalid role. Acceptable values are " ++
          pyStrListRepr (choices.map (fun c => c.2)) ++ "." }

/-- `StatusChoiceField.to_internal_value` (serializers.py lines 109-119),
identical to `RoleChoiceField.to_internal_value` up to the word of the
message. -/
def StatusChoiceField.to_internal_value (choices : List (Nat × String))
    (data : String) : Except ValidationError Nat :=
  match choices.find? (fun c => c.2 == data) with
  | some c => .ok c.1
  | none => .error
      { detail := "Invalid status. Acceptable values are " ++
          pyStrListRepr (choices.map (fun c => c.2)) ++ "." }

instance {ε α : Type} [DecidableEq ε] [DecidableEq α] : DecidableEq (Except ε α) :=
  fun a b =>
    match a, b with
    | .ok x, .ok y => if h : x = y then isTrue (by rw [h]) else isFalse (by simp [h])
    | .error x, .error y => if h : x = y then isTrue (by rw [h]) else isFalse (by simp [h])
    | .ok _, .error _ => isFalse (by simp)
    | .error _, .ok _ => isFalse (by simp)

/-! ### Helper lemmas -/

/-- The rational ceiling of `m / 1000` is the rounded-up integer division. -/
lemma ceil_div_thousand (m : ℕ) :
    ⌈((m : ℤ) : ℚ) / 1000⌉ = (((m + 999) / 1000 : ℕ) : ℤ) := by
  rw [Int.ceil_eq_iff]
  have h1 := Nat.div_add_mod (m + 999) 1000
  have h2 : (m + 999) % 1000 ≤ 999 := by omega
  set q := (m + 999) / 1000 with hq
  set r := (m + 999) % 1000 with hr
  have hc : (1000 * q + r : ℚ) = m + 999 := by
    exact_mod_cast congrArg (Nat.cast : ℕ → ℚ) h1
  have hr9 : (r : ℚ) ≤ 999 := by exact_mod_cast h2
  have hr0 : (0 : ℚ) ≤ r := by exact_mod_cast Nat.zero_le r
  constructor
  · rw [lt_div_iff₀ (by norm_num : (0:ℚ) < 1000)]
    push_cast
    linarith
  · rw [div_le_iff₀ (by norm_num : (0:ℚ) < 1000)]
    push_cast
    linarith

/-- When the display labels are pairwise distinct, the scan of the choices
finds exactly the entry of a stored pair. -/
lemma find?_eq_self_of_label_mem {choices : List (Nat × String)} {c : Nat × String}
    (hnd : (choices.map (fun x => x.2)).Nodup) (hc : c ∈ choices) :
    choices.find? (fun x => x.2 == c.2) = some c := by
  induction choices with
  | nil => cases hc
  | cons d t ih =>
    rw [List.map_cons, List.nodup_cons] at hnd
    rcases List.mem_cons.mp hc with h | h
    · subst h
      simp [List.find?_cons]
    · have hne : (d.2 == c.2) = false := by
        refine beq_eq_false_iff_ne.mpr ?_
        intro he
        exact hnd.1 (he ▸ List.mem_map_of_mem (fun x => x.2) h)
      rw [List.find?_cons, hne]
      exact ih hnd.2 h

/-! ### Concrete records used by counterexamples and witnesses -/

/-- A package whose period ends exactly at instant 5. -/
def samplePackageUntil5 : ExtraPackage :=
  { id := 1, subscription := 1, type := 1, quantity := 1,
    active_since := 0, active_until := some 5 }

/-- A subscription whose period ends exactly at instant 5. -/
def sampleSubscriptionUntil5 : Subscription :=
  { id := 1, plan := 1, account := 1, storage_quantity := 0,
    status := Status.active_paid, active_since := some 0, active_until := some 5 }

/-- A premium plan including 1000 MB of storage. -/
def samplePlanPremium : Plan :=
  { id := 1, code := "pro", user_type := 1, display_name := "Pro",
    storage_mb := 1000, is_public := true, is_default := false, is_premium := true }

/-! ### C3 — upper bound of the active query -/

/-- C3, counterexample: a record whose `active_until` equals the query
instant IS selected by the `active` queryset (both for packages and for
subscriptions), because the filter uses `active_until >= now`; the claimed
half-open interval `[active_since, active_until)` would exclude it. -/
theorem active_query_selects_at_active_until :
    extraPackageActive 5 samplePackageUntil5 = true ∧
    subscriptionActive 5 sampleSubscriptionUntil5 = true := by
  decide

/-- C3 (amended): a Subscription or ExtraPackage record with
`active_until = u` is selected by the `active` queryset at instant `t`
exactly when `active_since ≤ t ∧ t ≤ u`: the active period is the closed
interval `[active_since, active_until]`, inclusive of its upper end. -/
theorem active_query_upper_bound_inclusive (p : ExtraPackage) (s : Subscription)
    (t u a : Int) (hp : p.active_until = some u) (hs : s.active_until = some u)
    (ha : s.active_since = some a) :
    (extraPackageActive t p = true ↔ p.active_since ≤ t ∧ t ≤ u) ∧
    (subscriptionActive t s = true ↔ a ≤ t ∧ t ≤ u) := by
  constructor
  · rw [extraPackageActive, hp]
    simp
  · rw [subscriptionActive, hs, ha]
    simp

/-- C3, witness for `active_query_upper_bound_inclusive` at the concrete
records ending at instant 5, queried at instant 5. -/
theorem active_query_upper_bound_inclusive_witness :
    (samplePackageUntil5.active_until = some 5 ∧
      sampleSubscriptionUntil5.active_until = some 5 ∧
      sampleSubscriptionUntil5.active_since = some 0) ∧
    ((extraPackageActive 5 samplePackageUntil5 = true ↔
        samplePackageUntil5.active_since ≤ 5 ∧ (5:ℤ) ≤ 5) ∧
      (subscriptionActive 5 sampleSubscriptionUntil5 = true ↔ (0:ℤ) ≤ 5 ∧ (5:ℤ) ≤ 5)) :=
  ⟨⟨rfl, rfl, rfl⟩,
    active_query_upper_bound_inclusive samplePackageUntil5 sampleSubscriptionUntil5
      5 5 0 rfl rfl rfl⟩

/-! ### C5 — minimum storage package quantity -/

/-- C5: `min_storage_package_quantity` is the ceiling of
`max(used - included, 0) / 1000`, equivalently the rounded-up integer
division `(max(used - included, 0) + 999) / 1000`; it is 2 for 2500 MB used
against 1000 MB included, 0 for 500 MB used against 1000 MB included, and it
is never negative. -/
theorem min_storage_package_quantity_spec :
    (∀ (account : UserAccount) (plan : Plan),
      Subscription.min_storage_package_quantity account plan =
        ⌈((max (account.storage_quota_used_mb - (plan.storage_mb : Int)) 0 : Int) : ℚ) / 1000⌉) ∧
    (∀ (account : UserAccount) (plan : Plan),
      Subscription.min_storage_package_quantity account plan =
        ((((max (account.storage_quota_used_mb - (plan.storage_mb : Int)) 0).toNat + 999) / 1000 : ℕ) : ℤ)) ∧
    (∀ (account : UserAccount) (plan : Plan),
      0 ≤ Subscription.min_storage_package_quantity account plan) ∧
    Subscription.min_storage_package_quantity
      { pk := 0, user_type := 1, storage_quota_used_mb := 2500 } samplePlanPremium = 2 ∧
    Subscription.min_storage_package_quantity
      { pk := 0, user_type := 1, storage_quota_used_mb := 500 } samplePlanPremium = 0 := by
  have hchar : ∀ (account : UserAccount) (plan : Plan),
      Subscription.min_storage_package_quantity account plan =
        ((((max (account.storage_quota_used_mb - (plan.storage_mb : Int)) 0).toNat + 999) / 1000 : ℕ) : ℤ) := by
    intro account plan
    rw [Subscription.min_storage_package_quantity]
    have hnn : 0 ≤ max (account.storage_quota_used_mb - (plan.storage_mb : Int)) 0 :=
      le_max_right _ 0
    have := ceil_div_thousand (max (account.storage_quota_used_mb - (plan.storage_mb : Int)) 0).toNat
    rwa [Int.toNat_of_nonneg hnn] at this
  refine ⟨fun account plan => rfl, hchar, fun account plan => ?_, ?_, ?_⟩
  · rw [hchar]
    exact_mod_cast Nat.zero_le _
  · rw [hchar]
    decide
  · rw [hchar]
    decide

/-! ### C9 — choice fields of the serializers -/

/-- C9: for a role or status choice field whose display labels are pairwise
distinct, supplying a stored display label returns the corresponding
internal code, and supplying anything that is no display label raises a
validation error whose message lists the acceptable display labels. -/
theorem choice_field_to_internal_value_spec (choices : List (Nat × String))
    (data : String) (c : Nat × String)
    (hnd : (choices.map (fun x => x.2)).Nodup) :
    (c ∈ choices →
      RoleChoiceField.to_internal_value choices c.2 = .ok c.1 ∧
      StatusChoiceField.to_internal_value choices c.2 = .ok c.1) ∧
    (data ∉ choices.map (fun x => x.2) →
      RoleChoiceField.to_internal_value choices data =
        .error { detail := "Invalid role. Acceptable values are " ++
            pyStrListRepr (choices.map (fun x => x.2)) ++ "." } ∧
      StatusChoiceField.to_internal_value choices data =
        .error { detail := "Invalid status. Acceptable values are " ++
            pyStrListRepr (choices.map (fun x => x.2)) ++ "." }) := by
  constructor
  · intro hc
    have hf := find?_eq_self_of_label_mem hnd hc
    rw [RoleChoiceField.to_internal_value, StatusChoiceField.to_internal_value, hf]
    exact ⟨rfl, rfl⟩
  · intro hdata
    have hf : choices.find? (fun x => x.2 == data) = none := by
      refine List.find?_eq_none.mpr ?_
      intro x hx
      simp only [beq_iff_eq]
      intro he
      exact hdata (he ▸ List.mem_map_of_mem (fun y => y.2) hx)
    rw [RoleChoiceField.to_internal_value, StatusChoiceField.to_internal_value, hf]
    exact ⟨rfl, rfl⟩

/-- C9, witness: a two-entry choice mapping, the stored label "manager" and
the foreign value "boss". -/
theorem choice_field_to_internal_value_witness :
    (([(1, "admin"), (2, "manager")].map (fun x : Nat × String => x.2)).Nodup ∧
      (2, "manager") ∈ [(1, "admin"), (2, "manager")] ∧
      "boss" ∉ [(1, "admin"), (2, "manager")].map (fun x : Nat × String => x.2)) ∧
    (RoleChoiceField.to_internal_value [(1, "admin"), (2, "manager")] "manager" = .ok 2 ∧
      StatusChoiceField.to_internal_value [(1, "admin"), (2, "manager")] "manager" = .ok 2) ∧
    (RoleChoiceField.to_internal_value [(1, "admin"), (2, "manager")] "boss" =
        .error { detail := "Invalid role. Acceptable values are " ++
          pyStrListRepr ["admin", "manager"] ++ "." } ∧
      StatusChoiceField.to_internal_value [(1, "admin"), (2, "manager")] "boss" =
        .error { detail := "Invalid status. Acceptable values are " ++
          pyStrListRepr ["admin", "manager"] ++ "." }) := by
  refine ⟨⟨by decide, by decide, by decide⟩, ?_, ?_⟩
  · exact (choice_field_to_internal_value_spec [(1, "admin"), (2, "manager")]
      "boss" (2, "manager") (by decide)).1 (by decide)
  · exact (choice_field_to_internal_value_spec [(1, "admin"), (2, "manager")]
      "boss" (2, "manager") (by decide)).2 (by decide)

/-! ### C2 — activating a subscription closes the previously active one -/

/-- Image of a row hit by the close-out UPDATE of `update_subscription`:
status `INACTIVE_CANCELLED` and `active_until = active_since` of the
activation. -/
def closedOut (activeUntil : Int) (s : Subscription) : Subscription :=
  { s with status := Status.inactive_cancelled, active_until := some activeUntil }

/-- Image of the target row saved by `update_subscription`. -/
def activatedTarget (newStatus : Status) (newSince : Int) (newUntil : Option Int)
    (s : Subscription) : Subscription :=
  { s with status := newStatus, active_since := some newSince, active_until := newUntil }

/-- C2: updating subscription `B` of an account while a different
subscription `A` of the same account is currently active leaves `A` with
`active_until = B.active_since` and status `INACTIVE_CANCELLED` (database
value "inactive_cancelled"), while `B` carries the given status,
`active_since` and `active_until`. -/
theorem update_subscription_closes_previous (db : DB) (A B : Subscription)
    (newStatus : Status) (newSince : Int) (newUntil : Option Int) (now : Int)
    (hB : db.subscriptions.filter (fun s => s.id == B.id) = [B])
    (hA : A ∈ db.subscriptions) (hne : A.id ≠ B.id)
    (hacct : A.account = B.account)
    (hactive : subscriptionActive now A = true) :
    ∃ db1 : DB,
      Subscription.update_subscription db B.id newStatus newSince newUntil now =
        .ok (activatedTarget newStatus newSince newUntil B, db1) ∧
      closedOut newSince A ∈ db1.subscriptions ∧
      (closedOut newSince A).status.value = "inactive_cancelled" ∧
      (closedOut newSince A).active_until = some newSince := by
  rw [Subscription.update_subscription, hB]
  refine ⟨_, rfl, ?_, rfl, rfl⟩
  have hrow : update_subscription_row B.id B.account newStatus newSince newUntil now A =
      closedOut newSince A := by
    rw [update_subscription_row, closedOut]
    have h1 : (A.id == B.id) = false := beq_eq_false_iff_ne.mpr hne
    have h2 : (subscriptionActive now A && A.account == B.account) = true := by
      rw [hactive, hacct]
      simp
    rw [h1, h2]
    simp
  exact hrow ▸ List.mem_map_of_mem
    (update_subscription_row B.id B.account newStatus newSince newUntil now) hA

/-- Subscription A of the literal scenario: active since 2023-01-01 with no
end (dates are encoded as the integers 20230101 and so on). -/
def subA : Subscription :=
  { id := 1, plan := 1, account := 7, storage_quantity := 0,
    status := Status.active_paid, active_since := some 20230101, active_until := none }

/-- Subscription B of the literal scenario: a draft to be activated at
2023-06-01. -/
def subB : Subscription :=
  { id := 2, plan := 1, account := 7, storage_quantity := 0,
    status := Status.inactive_draft, active_since := none, active_until := none }

/-- Database of the literal scenario of C2. -/
def dbScenario : DB :=
  { plans := [], subscriptions := [subA, subB], packages := [],
    nextPlanId := 1, nextSubId := 3, nextPkgId := 1 }

/-- C2, witness: the literal scenario — A active since 2023-01-01 with no
end, B activated at 2023-06-01; afterwards A.active_until = 2023-06-01 and
A.status = "inactive_cancelled". -/
theorem update_subscription_closes_previous_witness :
    (dbScenario.subscriptions.filter (fun s => s.id == subB.id) = [subB] ∧
      subA ∈ dbScenario.subscriptions ∧ subA.id ≠ subB.id ∧
      subA.account = subB.account ∧ subscriptionActive 20230601 subA = true) ∧
    (∃ db1 : DB,
      Subscription.update_subscription dbScenario subB.id Status.active_paid
          20230601 none 20230601 =
        .ok (activatedTarget Status.active_paid 20230601 none subB, db1) ∧
      closedOut 20230601 subA ∈ db1.subscriptions ∧
      (closedOut 20230601 subA).status.value = "inactive_cancelled" ∧
      (closedOut 20230601 subA).active_until = some 20230601) :=
  ⟨⟨by decide, by decide, by decide, by decide, by decide⟩,
    update_subscription_closes_previous dbScenario subA subB Status.active_paid
      20230601 none 20230601 (by decide) (by decide) (by decide) (by decide) (by decide)⟩

/-! ### C1 — how many subscriptions are active after update_subscription -/

/-- The stored subscription rows after an update call, empty when the call
raised. -/
def update_result_subscriptions (r : Except PyErr (Subscription × DB)) :
    List Subscription :=
  match r with
  | .ok (_, db1) => db1.subscriptions
  | .error _ => []

/-- Previously active subscription of the boundary scenario. -/
def subPrev : Subscription :=
  { id := 1, plan := 1, account := 7, storage_quantity := 0,
    status := Status.active_paid, active_since := some 0, active_until := none }

/-- Target subscription of the boundary scenario. -/
def subTarget : Subscription :=
  { id := 2, plan := 1, account := 7, storage_quantity := 0,
    status := Status.inactive_draft, active_since := none, active_until := none }

/-- Future-dated subscription of the boundary scenario: not yet active at the
call instant, hence not cancelled by the close-out. -/
def subFuture : Subscription :=
  { id := 3, plan := 1, account := 7, storage_quantity := 0,
    status := Status.active_paid, active_since := some 10, active_until := none }

/-- Database of the boundary scenario of C1. -/
def dbBoundary : DB :=
  { plans := [], subscriptions := [subPrev, subTarget, subFuture], packages := [],
    nextPlanId := 1, nextSubId := 4, nextPkgId := 1 }

/-- C1, counterexample: activating subscription 2 at `active_since = 5` at
call instant 5 leaves TWO subscriptions of account 7 selected by the active
query at the current instant 5 (the closed-out one still matches
`active_until >= now`), and two again at instant 12 (the target plus the
future-dated subscription 3, which the close-out did not touch). -/
theorem update_subscription_two_active_counterexample :
    ((update_result_subscriptions (Subscription.update_subscription dbBoundary 2
        Status.active_paid 5 none 5)).filter
        (fun s => s.account == 7 && subscriptionActive 5 s)).length = 2 ∧
    ((update_result_subscriptions (Subscription.update_subscription dbBoundary 2
        Status.active_paid 5 none 5)).filter
        (fun s => s.account == 7 && subscriptionActive 12 s)).length = 2 := by
  decide

/-- The close-out and target updates preserve the primary key of every row. -/
lemma update_subscription_row_id (subId acct : Nat) (st : Status) (since : Int)
    (u : Option Int) (now : Int) (s : Subscription) :
    (update_subscription_row subId acct st since u now s).id = s.id := by
  rw [update_subscription_row]
  split
  · rfl
  · split
    · rfl
    · rfl

/-- Any row of the account that the active query still selects at an instant
strictly after both `active_since` and the call instant must be the target
row, provided the row was not future-dated at the call. -/
lemma update_subscription_row_active_is_target (B : Subscription) (newStatus : Status)
    (newSince : Int) (newUntil : Option Int) (now t : Int) (x : Subscription)
    (hx_future : x.account = B.account → ∀ a : Int, x.active_since = some a → a ≤ now)
    (ht1 : newSince < t) (ht2 : now < t)
    (hp : ((update_subscription_row B.id B.account newStatus newSince newUntil now x).account
        == B.account &&
        subscriptionActive t
          (update_subscription_row B.id B.account newStatus newSince newUntil now x)) = true) :
    ((update_subscription_row B.id B.account newStatus newSince newUntil now x).id
        == B.id) = true := by
  rw [Bool.and_eq_true] at hp
  obtain ⟨hpacct, hpact⟩ := hp
  by_cases h1 : (x.id == B.id) = true
  · rw [show (update_subscription_row B.id B.account newStatus newSince newUntil now x).id
        = x.id from update_subscription_row_id _ _ _ _ _ _ _]
    exact h1
  · exfalso
    have h1' : (x.id == B.id) = false := Bool.eq_false_iff.mpr h1
    by_cases h2 : (subscriptionActive now x && x.account == B.account) = true
    · -- close-out branch: the row now ends at `newSince < t`, so it is inactive at t
      have hfx : update_subscription_row B.id B.account newStatus newSince newUntil now x =
          { x with status := Status.inactive_cancelled, active_until := some newSince } := by
        rw [update_subscription_row, h1', h2]
        simp
      rw [hfx, subscriptionActive] at hpact
      simp only [Bool.and_eq_true, decide_eq_true_eq] at hpact
      omega
    · -- untouched branch: the row was already inactive at the call
      have h2' : (subscriptionActive now x && x.account == B.account) = false :=
        Bool.eq_false_iff.mpr h2
      have hfx : update_subscription_row B.id B.account newStatus newSince newUntil now x = x := by
        rw [update_subscription_row, h1', h2']
        simp
      rw [hfx] at hpacct hpact
      have hacct : x.account = B.account := by simpa using hpacct
      have hinact : subscriptionActive now x = false := by
        rcases Bool.and_eq_false_iff.mp h2' with h | h
        · exact h
        · rw [hacct] at h
          simp at h
      cases hsince : x.active_since with
      | none =>
        rw [subscriptionActive, hsince] at hpact
        simp at hpact
      | some a =>
        have ha : a ≤ now := hx_future hacct a hsince
        rw [subscriptionActive, hsince] at hpact hinact
        cases huntil : x.active_until with
        | none =>
          rw [huntil] at hinact
          simp only [Bool.and_true, decide_eq_false_iff_not] at hinact
          omega
        | some uu =>
          rw [huntil] at hpact hinact
          simp only [Bool.and_eq_true, decide_eq_true_eq] at hpact
          simp only [Bool.and_eq_false_iff, decide_eq_false_iff_not] at hinact
          omega

/-- C1 (amended): after a successful `update_subscription` activating
subscription `B`, at most one subscription of the account — the target — is
selected by the active query at every instant strictly later than both the
given `active_since` and the call instant, provided no other subscription of
the account was future-dated (had `active_since` later than the call
instant).  The close-out of the other subscriptions and the update of the
target happen in one atomic state transition (a single `transaction.atomic`
block, one Lean function here).  At the boundary instant `t = active_since`
itself the guarantee fails, see the counterexample. -/
theorem update_subscription_at_most_one_active (db : DB) (B : Subscription)
    (newStatus : Status) (newSince : Int) (newUntil : Option Int) (now t : Int)
    (hB : db.subscriptions.filter (fun s => s.id == B.id) = [B])
    (hnofuture : ∀ s ∈ db.subscriptions, s.account = B.account →
        ∀ a : Int, s.active_since = some a → a ≤ now)
    (ht1 : newSince < t) (ht2 : now < t) :
    ∀ (sub1 : Subscription) (db1 : DB),
      Subscription.update_subscription db B.id newStatus newSince newUntil now =
        .ok (sub1, db1) →
      (db1.subscriptions.filter
          (fun s => s.account == B.account && subscriptionActive t s)).length ≤ 1 := by
  intro sub1 db1 h
  rw [Subscription.update_subscription, hB] at h
  simp only [getSingle] at h
  rw [Except.ok.injEq, Prod.mk.injEq] at h
  obtain ⟨-, h2⟩ := h
  subst h2
  simp only []
  rw [← List.countP_eq_length_filter]
  calc (db.subscriptions.map
          (update_subscription_row B.id B.account newStatus newSince newUntil now)).countP
          (fun s => s.account == B.account && subscriptionActive t s)
      ≤ (db.subscriptions.map
          (update_subscription_row B.id B.account newStatus newSince newUntil now)).countP
          (fun s => s.id == B.id) := by
        refine List.countP_mono_left ?_
        intro x hx hp
        obtain ⟨y, hy, rfl⟩ := List.mem_map.mp hx
        exact update_subscription_row_active_is_target B newStatus newSince newUntil now t y
          (fun hacct a hs => hnofuture y hy hacct a hs) ht1 ht2 hp
    _ = db.subscriptions.countP
          ((fun s => s.id == B.id) ∘
            (update_subscription_row B.id B.account newStatus newSince newUntil now)) :=
        List.countP_map _ _ _
    _ = db.subscriptions.countP (fun s => s.id == B.id) := by
        refine List.countP_congr ?_
        intro x _
        simp [Function.comp, update_subscription_row_id]
    _ = (db.subscriptions.filter (fun s => s.id == B.id)).length :=
        List.countP_eq_length_filter _ _
    _ = 1 := by rw [hB]; rfl

/-- C1, witness: the boundary database without the future-dated row, queried
at instant 6 after activating subscription 2 at `active_since = 5` with call
instant 5. -/
theorem update_subscription_at_most_one_active_witness :
    ({ plans := [], subscriptions := [subPrev, subTarget], packages := [],
        nextPlanId := 1, nextSubId := 3, nextPkgId := 1 : DB }.subscriptions.filter
        (fun s => s.id == subTarget.id) = [subTarget] ∧ (5:ℤ) < 6 ∧ (5:ℤ) < 6) ∧
    ∀ (sub1 : Subscription) (db1 : DB),
      Subscription.update_subscription
          { plans := [], subscriptions := [subPrev, subTarget], packages := [],
            nextPlanId := 1, nextSubId := 3, nextPkgId := 1 } subTarget.id
          Status.active_paid 5 none 5 = .ok (sub1, db1) →
      (db1.subscriptions.filter
          (fun s => s.account == subTarget.account && subscriptionActive 6 s)).length ≤ 1 :=
  ⟨⟨by decide, by decide, by decide⟩,
    update_subscription_at_most_one_active
      { plans := [], subscriptions := [subPrev, subTarget], packages := [],
        nextPlanId := 1, nextSubId := 3, nextPkgId := 1 } subTarget Status.active_paid
      5 none 5 6 (by decide) (by decide) (by decide) (by decide)⟩

/-! ### C4 and C7 — update_package_quantity -/

/-- The storage package type row. -/
def storageType : ExtraPackageType :=
  { id := 1, code := "extra_storage", type := ExtraPackageTypeSTORAGE,
    is_public := true, min_quantity := 1, max_quantity := 10, unit_amount := 1000 }

/-- A subscription on the premium plan. -/
def subPremium : Subscription :=
  { id := 1, plan := 1, account := 7, storage_quantity := 0,
    status := Status.active_paid, active_since := some 0, active_until := none }

/-- Database with a premium subscription and one active storage package of
quantity 2. -/
def dbPremium : DB :=
  { plans := [samplePlanPremium], subscriptions := [subPremium],
    packages := [{ id := 1, subscription := 1, type := 1, quantity := 2,
                   active_since := 0, active_until := none }],
    nextPlanId := 2, nextSubId := 2, nextPkgId := 2 }

/-- C4 (code defect): on a premium subscription with an existing active
storage package, `update_package_quantity(STORAGE, 0)` does not close the old
package and return none — it raises `AttributeError`, because the active
package lookup passes `subscription=self.subscription` and the `Subscription`
model has no attribute `subscription` (the creation below it correctly uses
`subscription=self`); the enclosing `transaction.atomic` rolls back, so the
old package keeps `active_until = NULL`. -/
theorem update_package_quantity_raises_attribute_error :
    Subscription.update_package_quantity dbPremium subPremium storageType 0 5 =
      .error .attributeError ∧
    Subscription.update_package_quantity dbPremium subPremium storageType 3 5 =
      .error .attributeError := by
  decide

/-- C7: on a subscription whose plan is not premium, `update_package_quantity`
fails the `assert self.plan.is_premium` contract check — an `AssertionError`,
not a validation error — before reading or writing any package row; the error
result carries no database state, so nothing is created or modified. -/
theorem update_package_quantity_requires_premium (db : DB) (self : Subscription)
    (package_type : ExtraPackageType) (quantity : Nat) (now : Int) (plan : Plan)
    (hfind : db.plans.find? (fun q => q.id == self.plan) = some plan)
    (hprem : plan.is_premium = false) :
    Subscription.update_package_quantity db self package_type quantity now =
      .error .assertionError := by
  rw [Subscription.update_package_quantity, hfind]
  simp [bind, Except.bind, hprem]

/-- A non-premium plan. -/
def samplePlanFree : Plan :=
  { id := 2, code := "free", user_type := 1, display_name := "Free",
    storage_mb := 10, is_public := true, is_default := true, is_premium := false }

/-- A subscription on the non-premium plan. -/
def subFree : Subscription :=
  { id := 5, plan := 2, account := 8, storage_quantity := 0,
    status := Status.active_paid, active_since := some 0, active_until := none }

/-- Database with a non-premium subscription. -/
def dbFree : DB :=
  { plans := [samplePlanFree], subscriptions := [subFree], packages := [],
    nextPlanId := 3, nextSubId := 6, nextPkgId := 1 }

/-- C7, witness: adding a storage package to the free-plan subscription. -/
theorem update_package_quantity_requires_premium_witness :
    (dbFree.plans.find? (fun q => q.id == subFree.plan) = some samplePlanFree ∧
      samplePlanFree.is_premium = false) ∧
    Subscription.update_package_quantity dbFree subFree storageType 3 5 =
      .error .assertionError :=
  ⟨⟨by decide, by decide⟩,
    update_package_quantity_requires_premium dbFree subFree storageType 3 5
      samplePlanFree (by decide) (by decide)⟩

/-! ### C6 and C10 — get_or_create_active_subscription -/

/-- The default subscription row written by
`create_default_plan_subscription`. -/
def defaultSubscriptionRow (db : DB) (account : UserAccount) (p : Plan)
    (now : Int) : Subscription :=
  { id := db.nextSubId, plan := p.id, account := account.pk,
    storage_quantity := 0, status := Status.active_paid,
    active_since := some now, active_until := none }

/-- The database after `create_default_plan_subscription` appended its row. -/
def dbWithDefaultSubscription (db : DB) (account : UserAccount) (p : Plan)
    (now : Int) : DB :=
  { db with
      subscriptions := db.subscriptions ++ [defaultSubscriptionRow db account p now],
      nextSubId := db.nextSubId + 1 }

/-- C6: when exactly one subscription of the account is selected by the
active query, `get_or_create_active_subscription` returns it and creates
nothing; when none is selected and `p` is the unique plan flagged default
for the account user category, it creates and returns a subscription on `p`
with status `ACTIVE_PAID` and `active_since = now`; and
`create_default_plan_subscription` raises a hard failure, writing nothing,
whenever the account already has an active subscription (concretely an
`AttributeError`: even building the message of the intended `Exception`
fails, since a queryset has no attribute `id`). -/
theorem get_or_create_active_subscription_spec (db : DB) (account : UserAccount)
    (now : Int) (s : Subscription) (p : Plan) :
    (active_account_subscriptions db account.pk now = [s] →
      Subscription.get_or_create_active_subscription db account now = .ok (s, db)) ∧
    (active_account_subscriptions db account.pk now = [] →
      db.plans.filter (fun q => q.user_type == account.user_type && q.is_default) = [p] →
      Subscription.get_or_create_active_subscription db account now =
        .ok (defaultSubscriptionRow db account p now,
          dbWithDefaultSubscription db account p now) ∧
      (defaultSubscriptionRow db account p now).status = Status.active_paid ∧
      (defaultSubscriptionRow db account p now).active_since = some now ∧
      (defaultSubscriptionRow db account p now).plan = p.id) ∧
    (active_account_subscriptions db account.pk now ≠ [] →
      Subscription.create_default_plan_subscription db account none now =
        .error .attributeError) := by
  refine ⟨?_, ?_, ?_⟩
  · intro ha
    rw [Subscription.get_or_create_active_subscription, ha]
    rfl
  · intro ha hp
    rw [Subscription.get_or_create_active_subscription, ha]
    simp only [getSingle]
    rw [Subscription.create_default_plan_subscription, ha, hp]
    simp [defaultSubscriptionRow, dbWithDefaultSubscription, getSingle]
  · intro ha
    rw [Subscription.create_default_plan_subscription]
    simp [ha]

/-- Account used by the C6 witness scenarios. -/
def accountNine : UserAccount :=
  { pk := 9, user_type := 1, storage_quota_used_mb := 0 }

/-- An active subscription of account 9. -/
def subNineActive : Subscription :=
  { id := 11, plan := 2, account := 9, storage_quantity := 0,
    status := Status.active_paid, active_since := some 0, active_until := none }

/-- Database in which account 9 has exactly one active subscription. -/
def dbOneActive : DB :=
  { plans := [samplePlanFree], subscriptions := [subNineActive], packages := [],
    nextPlanId := 3, nextSubId := 12, nextPkgId := 1 }

/-- Database in which account 9 has no subscription and the free plan is the
default plan of its user category. -/
def dbNoActive : DB :=
  { plans := [samplePlanFree], subscriptions := [], packages := [],
    nextPlanId := 3, nextSubId := 12, nextPkgId := 1 }

/-- C6, witness: the three branches at concrete databases — one active
subscription returned unchanged, none leading to a created default
subscription, and the double-activation hard failure. -/
theorem get_or_create_active_subscription_spec_witness :
    (active_account_subscriptions dbOneActive accountNine.pk 5 = [subNineActive] ∧
      active_account_subscriptions dbNoActive accountNine.pk 5 = [] ∧
      dbNoActive.plans.filter (fun q =>
        q.user_type == accountNine.user_type && q.is_default) = [samplePlanFree]) ∧
    Subscription.get_or_create_active_subscription dbOneActive accountNine 5 =
      .ok (subNineActive, dbOneActive) ∧
    (Subscription.get_or_create_active_subscription dbNoActive accountNine 5 =
        .ok (defaultSubscriptionRow dbNoActive accountNine samplePlanFree 5,
          dbWithDefaultSubscription dbNoActive accountNine samplePlanFree 5) ∧
      (defaultSubscriptionRow dbNoActive accountNine samplePlanFree 5).status =
        Status.active_paid ∧
      (defaultSubscriptionRow dbNoActive accountNine samplePlanFree 5).active_since =
        some 5 ∧
      (defaultSubscriptionRow dbNoActive accountNine samplePlanFree 5).plan =
        samplePlanFree.id) ∧
    Subscription.create_default_plan_subscription dbOneActive accountNine none 5 =
      .error .attributeError :=
  ⟨⟨by decide, by decide, by decide⟩,
    (get_or_create_active_subscription_spec dbOneActive accountNine 5 subNineActive
      samplePlanFree).1 (by decide),
    (get_or_create_active_subscription_spec dbNoActive accountNine 5 subNineActive
      samplePlanFree).2.1 (by decide) (by decide),
    (get_or_create_active_subscription_spec dbOneActive accountNine 5 subNineActive
      samplePlanFree).2.2 (by decide)⟩

/-- C10: when two or more subscriptions of the account are selected by the
active query, `get_or_create_active_subscription` neither returns one of them
nor creates a default subscription: the single-record `.get` raises
`MultipleObjectsReturned`, which only the `DoesNotExist` handler below it
could have intercepted, so it propagates and the error result carries no
database state. -/
theorem get_or_create_active_subscription_multiple (db : DB) (account : UserAccount)
    (now : Int)
    (h2 : 2 ≤ (active_account_subscriptions db account.pk now).length) :
    Subscription.get_or_create_active_subscription db account now =
      .error .multipleObjectsReturned := by
  rw [Subscription.get_or_create_active_subscription]
  rcases hl : active_account_subscriptions db account.pk now with _ | ⟨x, _ | ⟨y, t⟩⟩
  · rw [hl] at h2
    simp at h2
  · rw [hl] at h2
    simp at h2
  · rfl

/-- A second active subscription of account 9, overlapping the first. -/
def subNineActiveBis : Subscription :=
  { id := 12, plan := 2, account := 9, storage_quantity := 0,
    status := Status.active_past_due, active_since := some 1, active_until := none }

/-- Database in which account 9 has two simultaneously active
subscriptions. -/
def dbTwoActive : DB :=
  { plans := [samplePlanFree],
    subscriptions := [subNineActive, subNineActiveBis], packages := [],
    nextPlanId := 3, nextSubId := 13, nextPkgId := 1 }

/-- C10, witness: two overlapping active subscriptions of account 9. -/
theorem get_or_create_active_subscription_multiple_witness :
    2 ≤ (active_account_subscriptions dbTwoActive accountNine.pk 5).length ∧
    Subscription.get_or_create_active_subscription dbTwoActive accountNine 5 =
      .error .multipleObjectsReturned :=
  ⟨by decide,
    get_or_create_active_subscription_multiple dbTwoActive accountNine 5 (by decide)⟩

/-! ### C8 — at most one default plan per user category -/

/-- At most one plan of every user category carries `is_default`. -/
def atMostOneDefault (db : DB) : Prop :=
  ∀ ut : Nat, db.plans.countP (fun q => q.user_type == ut && q.is_default) ≤ 1

/-- In a list whose keys are pairwise distinct, at most one element carries a
given key. -/
lemma countP_eq_key_le_one {α : Type} (f : α → Nat) (l : List α)
    (h : (l.map f).Nodup) (c : Nat) : l.countP (fun x => f x == c) ≤ 1 := by
  induction l with
  | nil => simp
  | cons x t ih =>
    rw [List.map_cons, List.nodup_cons] at h
    rw [List.countP_cons]
    by_cases hx : (f x == c) = true
    · have hxc : f x = c := by simpa using hx
      have hz : t.countP (fun y => f y == c) = 0 := by
        rw [List.countP_eq_zero]
        intro y hy
        simp only [beq_iff_eq]
        intro he
        exact h.1 (hxc ▸ he ▸ List.mem_map_of_mem f hy)
      rw [hz, hx]
      simp
    · have hx' : (f x == c) = false := Bool.eq_false_iff.mpr hx
      rw [hx']
      simpa using ih h.2

/-- Counting through a row transform is bounded by counting a weaker
predicate on the original rows. -/
lemma countP_map_le {α : Type} (g : α → α) (pred pred2 : α → Bool) (l : List α)
    (h : ∀ y ∈ l, pred (g y) = true → pred2 y = true) :
    (l.map g).countP pred ≤ l.countP pred2 := by
  rw [List.countP_map]
  exact List.countP_mono_left h

/-- The close-out UPDATE of `Plan.save` preserves primary keys. -/
lemma unsetDefaultRow_id (p q : Plan) : (unsetDefaultRow p q).id = q.id := by
  rw [unsetDefaultRow]
  split
  · rfl
  · rfl

/-- A row of the unset map sharing the user category of the saved plan does
not carry `is_default`. -/
lemma unset_map_default_false (p : Plan) (l : List Plan) (q : Plan)
    (hq : q ∈ l.map (unsetDefaultRow p)) (hqut : q.user_type = p.user_type) :
    q.is_default = false := by
  obtain ⟨z, hz, rfl⟩ := List.mem_map.mp hq
  by_cases hzut : (z.user_type == p.user_type) = true
  · rw [unsetDefaultRow, if_pos hzut]
  · have hzq : unsetDefaultRow p z = z := by rw [unsetDefaultRow, if_neg hzut]
    rw [hzq] at hqut
    exact absurd (by simp [hqut] : (z.user_type == p.user_type) = true) hzut

/-- The plans stored by a successful `Plan.save`. -/
lemma save_plans_shape (db : DB) (p : Plan) (db1 : DB) (h : Plan.save db p = .ok db1) :
    db1.plans =
      (if (if p.is_default then db.plans.map (unsetDefaultRow p) else db.plans).any
          (fun q => q.id == p.id) then
        (if p.is_default then db.plans.map (unsetDefaultRow p) else db.plans).map
          (upsertRow p)
      else
        (if p.is_default then db.plans.map (unsetDefaultRow p) else db.plans) ++ [p]) := by
  rw [Plan.save] at h
  split at h
  · simp at h
  · rw [Except.ok.injEq] at h
    rw [← h]

/-- C8 part of the claim text: a successful save of a default plan unsets
`is_default` on all other plans of the same user category. -/
lemma plan_save_unsets (db : DB) (p : Plan) (db1 : DB) (h : Plan.save db p = .ok db1)
    (hd : p.is_default = true) :
    ∀ q ∈ db1.plans, q.id ≠ p.id → q.user_type = p.user_type → q.is_default = false := by
  intro q hq hqid hqut
  rw [save_plans_shape db p db1 h, hd, if_pos rfl] at hq
  have hq_unset : q ∈ db.plans.map (unsetDefaultRow p) → q.is_default = false :=
    fun hmem => unset_map_default_false p db.plans q hmem hqut
  split at hq
  · obtain ⟨y, hy, rfl⟩ := List.mem_map.mp hq
    by_cases hid : (y.id == p.id) = true
    · exact absurd (by rw [upsertRow, if_pos hid] : upsertRow p y = p)
        (fun hepq => hqid (by rw [hepq]))
    · have hyq : upsertRow p y = y := by rw [upsertRow, if_neg hid]
      rw [hyq]
      rw [hyq] at hqut
      exact unset_map_default_false p db.plans y hy hqut
  · rcases List.mem_append.mp hq with hmem | hmem
    · exact hq_unset hmem
    · exact absurd (List.mem_singleton.mp hmem) (fun hepq => hqid (by rw [hepq]))

/-- A successful `Plan.save` preserves the at-most-one-default invariant when
primary keys are pairwise distinct. -/
lemma plan_save_at_most_one (db : DB) (p : Plan) (db1 : DB)
    (h : Plan.save db p = .ok db1)
    (hnd : (db.plans.map (fun q => q.id)).Nodup)
    (hinv : atMostOneDefault db) : atMostOneDefault db1 := by
  intro ut
  have hsh := save_plans_shape db p db1 h
  rw [hsh]
  by_cases hpp : (p.user_type == ut && p.is_default) = true
  · -- the saved row is a default of this category: all unset rows of the
    -- category lost is_default, so only the row keyed p.id can count
    rw [Bool.and_eq_true] at hpp
    obtain ⟨hput, hpd⟩ := hpp
    have hut : p.user_type = ut := by simpa using hput
    rw [hpd, if_pos rfl]
    have h0 : ∀ y ∈ db.plans.map (unsetDefaultRow p),
        (y.user_type == ut && y.is_default) = false := by
      intro y hy
      by_cases hyut : y.user_type = p.user_type
      · rw [unset_map_default_false p db.plans y hy hyut, Bool.and_false]
      · have : (y.user_type == ut) = false := by
          refine beq_eq_false_iff_ne.mpr ?_
          rw [← hut]
          exact hyut
        rw [this, Bool.false_and]
    split
    · refine le_trans (countP_map_le (upsertRow p) _ (fun y => y.id == p.id) _ ?_) ?_
      · intro y hy hpy
        by_cases hid : (y.id == p.id) = true
        · exact hid
        · have hyq : upsertRow p y = y := by rw [upsertRow, if_neg hid]
          rw [hyq] at hpy
          rw [h0 y hy] at hpy
          cases hpy
      · calc (db.plans.map (unsetDefaultRow p)).countP (fun y => y.id == p.id)
            = db.plans.countP ((fun y => y.id == p.id) ∘ unsetDefaultRow p) :=
              List.countP_map _ _ _
          _ = db.plans.countP (fun y => y.id == p.id) := by
              refine List.countP_congr ?_
              intro x _
              simp [Function.comp, unsetDefaultRow_id]
          _ ≤ 1 := countP_eq_key_le_one (fun q => q.id) db.plans hnd p.id
    · rw [List.countP_append]
      have hz : (db.plans.map (unsetDefaultRow p)).countP
          (fun q => q.user_type == ut && q.is_default) = 0 := by
        rw [List.countP_eq_zero]
        intro y hy
        rw [h0 y hy]
        simp
      rw [hz]
      simp [List.countP_cons]
      split
      · exact le_refl 1
      · exact Nat.zero_le 1
  · -- the saved row does not count for this category: counts can only shrink
    have hpp' : (p.user_type == ut && p.is_default) = false := Bool.eq_false_iff.mpr hpp
    have hL1 : ∀ (l : List Plan),
        (l.map (unsetDefaultRow p)).countP (fun q => q.user_type == ut && q.is_default) ≤
          l.countP (fun q => q.user_type == ut && q.is_default) := by
      intro l
      refine countP_map_le _ _ _ _ ?_
      intro y _ hpy
      by_cases hyut : (y.user_type == p.user_type) = true
      · rw [unsetDefaultRow, if_pos hyut] at hpy
        simp at hpy
      · have hyq : unsetDefaultRow p y = y := by rw [unsetDefaultRow, if_neg hyut]
        rw [hyq] at hpy
        exact hpy
    set L1 := (if p.is_default then db.plans.map (unsetDefaultRow p) else db.plans)
      with hL1def
    have hbase : L1.countP (fun q => q.user_type == ut && q.is_default) ≤ 1 := by
      rw [hL1def]
      split
      · exact le_trans (hL1 db.plans) (hinv ut)
      · exact hinv ut
    by_cases hany : (L1.any (fun q => q.id == p.id)) = true
    · rw [if_pos hany]
      refine le_trans (countP_map_le (upsertRow p) _ _ _ ?_) hbase
      intro y _ hpy
      by_cases hid : (y.id == p.id) = true
      · rw [upsertRow, if_pos hid] at hpy
        rw [hpy] at hpp'
        cases hpp'
      · have hyq : upsertRow p y = y := by rw [upsertRow, if_neg hid]
        rw [hyq] at hpy
        exact hpy
    · rw [if_neg hany, List.countP_append]
      have hp0 : List.countP (fun q => q.user_type == ut && q.is_default) [p] = 0 := by
        simp [List.countP_cons, hpp']
      rw [hp0, Nat.add_zero]
      exact hbase

/-- One call of `get_or_create_default` preserves the at-most-one-default
invariant: on a non-empty table it writes nothing, and from an empty table it
creates exactly one default plan for each of the two user categories. -/
lemma get_or_create_default_state_preserves (db : DB) (hinv : atMostOneDefault db) :
    atMostOneDefault (get_or_create_default_state db) := by
  by_cases h : db.plans.length = 0
  · have hpl : db.plans = [] := List.length_eq_zero.mp h
    have hstate : (get_or_create_default_state db).plans =
        [{ id := db.nextPlanId, code := "default_user", user_type := UserType.PERSON,
           display_name := "default user (autocreated)", storage_mb := 10,
           is_public := false, is_default := true, is_premium := false },
         { id := db.nextPlanId + 1, code := "default_org",
           user_type := UserType.ORGANIZATION,
           display_name := "default organization (autocreated)", storage_mb := 10,
           is_public := false, is_default := true, is_premium := false }] := by
      rw [get_or_create_default_state, Plan.get_or_create_default]
      simp [hpl, Plan.create_plan, Plan.save, unsetDefaultRow, upsertRow,
        UserType.PERSON, UserType.ORGANIZATION]
    intro ut
    rw [atMostOneDefault] at hinv
    rw [hstate]
    rw [List.countP_cons, List.countP_cons, List.countP_nil]
    simp only [UserType.PERSON, UserType.ORGANIZATION, Bool.and_true, beq_iff_eq]
    split_ifs <;> omega
  · have hdb : get_or_create_default_state db = db := by
      rw [get_or_create_default_state, Plan.get_or_create_default]
      have hne : (db.plans.length == 0) = false := by
        simp [h]
      rw [hne]
      rfl
    rw [hdb]
    exact hinv

/-- C8: every successful `Plan.save` of a plan flagged default unsets
`is_default` on all other plans of the same user category; under distinct
primary keys a successful save preserves the at-most-one-default-per-category
invariant; and `Plan.get_or_create_default` is idempotent — any number of
calls keeps at most one default plan per user category. -/
theorem plan_default_unique_and_idempotent :
    (∀ (db : DB) (p : Plan) (db1 : DB), Plan.save db p = .ok db1 →
      (p.is_default = true → ∀ q ∈ db1.plans, q.id ≠ p.id →
        q.user_type = p.user_type → q.is_default = false) ∧
      ((db.plans.map (fun q => q.id)).Nodup → atMostOneDefault db →
        atMostOneDefault db1)) ∧
    (∀ (n : Nat) (db : DB), atMostOneDefault db →
      atMostOneDefault (get_or_create_default_state^[n] db)) := by
  constructor
  · intro db p db1 h
    exact ⟨plan_save_unsets db p db1 h,
      fun hnd hinv => plan_save_at_most_one db p db1 h hnd hinv⟩
  · intro n
    induction n with
    | zero =>
      intro db hinv
      simpa using hinv
    | succ k ih =>
      intro db hinv
      rw [Function.iterate_succ_apply']
      exact get_or_create_default_state_preserves _ (ih db hinv)

/-- The previous default plan of the person category. -/
def planOldDefault : Plan :=
  { id := 1, code := "old", user_type := 1, display_name := "Old",
    storage_mb := 10, is_public := true, is_default := true, is_premium := false }

/-- The default plan of the organization category, untouched by a save in the
person category. -/
def planOrgDefault : Plan :=
  { id := 2, code := "org", user_type := 2, display_name := "Org",
    storage_mb := 10, is_public := true, is_default := true, is_premium := false }

/-- A new default plan of the person category about to be saved. -/
def planNewDefault : Plan :=
  { id := 3, code := "new", user_type := 1, display_name := "New",
    storage_mb := 10, is_public := true, is_default := true, is_premium := false }

/-- Plan table before saving `planNewDefault`. -/
def dbSaveBefore : DB :=
  { plans := [planOldDefault, planOrgDefault], subscriptions := [], packages := [],
    nextPlanId := 3, nextSubId := 1, nextPkgId := 1 }

/-- Plan table after saving `planNewDefault`: the old person default is
unset, the organization default survives, the new row is inserted. -/
def dbSaveAfter : DB :=
  { plans := [{ id := 1, code := "old", user_type := 1, display_name := "Old",
                storage_mb := 10, is_public := true, is_default := false,
                is_premium := false },
              planOrgDefault, planNewDefault],
    subscriptions := [], packages := [],
    nextPlanId := 3, nextSubId := 1, nextPkgId := 1 }

/-- An empty database. -/
def dbEmpty : DB :=
  { plans := [], subscriptions := [], packages := [],
    nextPlanId := 1, nextSubId := 1, nextPkgId := 1 }

/-- C8, witness: saving a new person-category default over an existing one,
and two consecutive `get_or_create_default` calls from an empty table. -/
theorem plan_default_unique_and_idempotent_witness :
    Plan.save dbSaveBefore planNewDefault = .ok dbSaveAfter ∧
    ((planNewDefault.is_default = true → ∀ q ∈ dbSaveAfter.plans,
        q.id ≠ planNewDefault.id → q.user_type = planNewDefault.user_type →
        q.is_default = false) ∧
      ((dbSaveBefore.plans.map (fun q => q.id)).Nodup →
        atMostOneDefault dbSaveBefore → atMostOneDefault dbSaveAfter)) ∧
    atMostOneDefault (get_or_create_default_state^[2] dbEmpty) :=
  ⟨by decide,
    plan_default_unique_and_idempotent.1 dbSaveBefore planNewDefault dbSaveAfter
      (by decide),
    plan_default_unique_and_idempotent.2 2 dbEmpty
      (fun ut => by simp [dbEmpty])⟩

end QFieldCloud
